import Mathlib

/-!
Verification of the prediction confidence engine of the football-betting
repository: the multi-timeframe confidence calculator
(`v2/utils/confidence.py`), the risk-adjustment layer
(`v2/patterns/risk_adjustment.py`), the pattern catalog
(`v2/patterns/registry.py`), and the best-bet selection loops of the league
predictors (`v2/simple_romanian_predictor.py`,
`v2/simple_premier_league_predictor.py`).

Modelling conventions:
* dates are integer day numbers (the data carries whole-day `Date` values,
  so `match_date - timedelta(days=n)` is exact integer arithmetic);
* Python floats are modelled as exact rationals `ℚ`;
* `np.std` (population standard deviation) is only ever compared against
  the positive constants 0.03 and 0.05, so the embedding stores the
  population *variance* `std_sq` and compares against the squared
  constants, which is exactly equivalent since `std = sqrt var` and both
  sides are nonnegative;
* a pandas DataFrame of match rows is a `List MatchRow`, boolean-series
  `.mean()` is `countP / length`, `df[mask]` is `List.filter`;
* `data['Date'].min()` on an empty frame yields `NaT`, for which the
  `> 730` comparison is falsy, so the all-history timeframe is simply not
  added when the corpus is empty (modelled with `Option ℤ`).
-/

namespace Betting

/-- A match record: the `Date` column plus the numeric statistics read by the
example predicates (full-time home/away goals, corners, yellow cards). -/
structure MatchRow where
  date : ℤ
  fthg : ℕ
  ftag : ℕ
  hc : ℕ
  ac : ℕ
  hy : ℕ
  ay : ℕ
deriving DecidableEq, Repr

/-- `tf_data.apply(pattern_fn, axis=1).mean()` — the fraction of rows on which
the pattern predicate holds (confidence.py line 88). -/
def hitRate (pattern_fn : MatchRow → Bool) (rows : List MatchRow) : ℚ :=
  (rows.countP pattern_fn : ℚ) / (rows.length : ℚ)

/-- The rows that fall into one timeframe window (confidence.py lines 80-85):
the sentinel `99999` selects all strictly-earlier rows, any other window
selects `[match_date - days, match_date)`. -/
def tfData (data : List MatchRow) (match_date : ℤ) (days : ℕ) : List MatchRow :=
  if days = 99999 then
    data.filter (fun r => decide (r.date < match_date))
  else
    data.filter (fun r => decide (match_date - (days : ℤ) ≤ r.date ∧ r.date < match_date))

/-- The default timeframe weight table (confidence.py lines 57-64). -/
def defaultTimeframes : List (ℕ × ℚ) :=
  [(7, 30/100), (14, 23/100), (30, 18/100), (90, 14/100), (365, 10/100), (730, 5/100)]

/-- `data['Date'].min()` — `none` on an empty corpus. -/
def earliestDate : List MatchRow → Option ℤ
  | [] => none
  | r :: rs =>
    match earliestDate rs with
    | none => some r.date
    | some m => some (min r.date m)

/-- The timeframe table actually iterated over (confidence.py lines 54-73):
a custom table is used verbatim; otherwise the defaults, extended by the
zero-weight all-history window `99999` when `use_all_history` is set and the
corpus reaches back more than 730 days before `match_date`. -/
def effectiveTimeframes (data : List MatchRow) (match_date : ℤ)
    (custom_timeframes : Option (List (ℕ × ℚ))) (use_all_history : Bool) :
    List (ℕ × ℚ) :=
  match custom_timeframes with
  | some tfs => tfs
  | none =>
    if use_all_history then
      match earliestDate data with
      | some e =>
        if 730 < match_date - e then defaultTimeframes ++ [(99999, 0)]
        else defaultTimeframes
      | none => defaultTimeframes
    else defaultTimeframes

/-- One entry of `timeframe_results` (confidence.py lines 89-93). -/
structure TFEntry where
  days : ℕ
  matchCount : ℕ
  success : ℚ
  weight : ℚ
deriving DecidableEq, Repr

/-- `timeframe_results` (confidence.py lines 79-96): only windows with at
least one row get an entry. -/
def timeframeResults (data : List MatchRow) (match_date : ℤ)
    (pattern_fn : MatchRow → Bool) (tfs : List (ℕ × ℚ)) : List TFEntry :=
  tfs.filterMap (fun dw =>
    let rows := tfData data match_date dw.1
    if 0 < rows.length then
      some ⟨dw.1, rows.length, hitRate pattern_fn rows, dw.2⟩
    else none)

/-- The entries iterated by the ensemble loop: positive weight only
(confidence.py lines 106-109). -/
def usedEntries (entries : List TFEntry) : List TFEntry :=
  entries.filter (fun e => decide (0 < e.weight))

/-- `total_weight` (confidence.py lines 104-109). -/
def totalWeight (entries : List TFEntry) : ℚ :=
  ((usedEntries entries).map (fun e => e.weight)).sum

/-- The accumulated `ensemble_confidence` numerator (confidence.py line 108). -/
def weightedSum (entries : List TFEntry) : ℚ :=
  ((usedEntries entries).map (fun e => e.success * e.weight)).sum

/-- `ensemble_confidence` after normalization (confidence.py line 111). -/
def ensembleConfidence (entries : List TFEntry) : ℚ :=
  if 0 < totalWeight entries then weightedSum entries / totalWeight entries else 1/2

/-- The `confidences` list used for the consistency check (confidence.py
lines 94-96): success rates of nonempty windows with positive weight. -/
def confidencesList (entries : List TFEntry) : List ℚ :=
  (usedEntries entries).map (fun e => e.success)

/-- `timeframe_results.get(d)` (dict lookup; keys are unique in the source
tables, dict semantics is first match). -/
def tfGet (entries : List TFEntry) (d : ℕ) : Option TFEntry :=
  entries.find? (fun e => e.days == d)

inductive Trend
  | strong_uptrend
  | downtrend
  | stable
deriving DecidableEq, Repr

inductive Consistency
  | high
  | moderate
  | low
deriving DecidableEq, Repr

inductive SampleQuality
  | sufficient
  | adequate
  | insufficient
deriving DecidableEq, Repr

/-- Population variance of a list, `np.std(xs) ^ 2`. -/
def popVariance (xs : List ℚ) : ℚ :=
  ((xs.map (fun x => (x - xs.sum / (xs.length : ℚ))^2)).sum) / (xs.length : ℚ)

/-- Sample-size validation (confidence.py lines 147-159), as a function of the
configured minimums and the observed 7-day and 30-day window counts. -/
def sampleAdjustment (min_matches_7d min_matches_30d : ℤ)
    (matches_7d matches_30d : ℕ) : SampleQuality × ℚ :=
  if min_matches_7d ≤ (matches_7d : ℤ) ∧ min_matches_30d ≤ (matches_30d : ℤ) then
    (.sufficient, 0)
  else if max 2 (min_matches_7d - 1) ≤ (matches_7d : ℤ) ∧
      max 8 (min_matches_30d - 2) ≤ (matches_30d : ℤ) then
    (.adequate, -(2/100))
  else
    (.insufficient, -(5/100))

/-- The `debug_info` dictionary (confidence.py lines 168-186); `std_sq` holds
the square of the stored `std_dev`. -/
structure DebugInfo where
  ensemble_confidence : ℚ
  final_confidence : ℚ
  timeframe_results : List TFEntry
  trend : Trend
  trend_adjustment : ℚ
  trend_7_vs_30 : ℚ
  trend_30_vs_season : ℚ
  trend_season_vs_all : ℚ
  consistency : Consistency
  consistency_adjustment : ℚ
  std_sq : ℚ
  sample_quality : SampleQuality
  sample_adjustment : ℚ
  matches_7d : ℕ
  matches_30d : ℕ
  all_history_matches : ℕ
  all_history_success : ℚ
deriving DecidableEq, Repr

/-- Steps 2-6 of the algorithm (confidence.py lines 102-186), computed from
the populated `timeframe_results` entries. -/
def computeDebugInfo (entries : List TFEntry)
    (min_matches_7d min_matches_30d : ℤ) : DebugInfo :=
  let ensemble := ensembleConfidence entries
  let recent_7 := ((tfGet entries 7).map (fun e => e.success)).getD ensemble
  let recent_30 := ((tfGet entries 30).map (fun e => e.success)).getD ensemble
  let season := ((tfGet entries 365).map (fun e => e.success)).getD ensemble
  let all_history := ((tfGet entries 99999).map (fun e => e.success)).getD ensemble
  let trend_7_vs_30 := recent_7 - recent_30
  let trend_30_vs_season := recent_30 - season
  let trend_season_vs_all :=
    if (tfGet entries 99999).isSome then season - all_history else 0
  let trendPair : Trend × ℚ :=
    if 3/100 < trend_7_vs_30 ∧ -(2/100) ≤ trend_30_vs_season then
      (.strong_uptrend, 2/100)
    else if trend_7_vs_30 < -(3/100) ∧ trend_30_vs_season ≤ 2/100 then
      (.downtrend, -(2/100))
    else (.stable, 0)
  let confs := confidencesList entries
  let std_sq := if 1 < confs.length then popVariance confs else 0
  let consistencyPair : Consistency × ℚ :=
    if std_sq < (3/100)^2 then (.high, 1/100)
    else if std_sq < (5/100)^2 then (.moderate, 0)
    else (.low, -(2/100))
  let matches_7d := ((tfGet entries 7).map (fun e => e.matchCount)).getD 0
  let matches_30d := ((tfGet entries 30).map (fun e => e.matchCount)).getD 0
  let samplePair := sampleAdjustment min_matches_7d min_matches_30d matches_7d matches_30d
  let final := max 0 (min 1
    (ensemble + trendPair.2 + consistencyPair.2 + samplePair.2))
  { ensemble_confidence := ensemble
    final_confidence := final
    timeframe_results := entries
    trend := trendPair.1
    trend_adjustment := trendPair.2
    trend_7_vs_30 := trend_7_vs_30
    trend_30_vs_season := trend_30_vs_season
    trend_season_vs_all := trend_season_vs_all
    consistency := consistencyPair.1
    consistency_adjustment := consistencyPair.2
    std_sq := std_sq
    sample_quality := samplePair.1
    sample_adjustment := samplePair.2
    matches_7d := matches_7d
    matches_30d := matches_30d
    all_history_matches := ((tfGet entries 99999).map (fun e => e.matchCount)).getD 0
    all_history_success := all_history }

/-- The second component of the returned pair: either the explicit no-data
dictionary `{'error': 'No historical data available'}` or the full
`debug_info`. -/
inductive Breakdown
  | noData
  | info (d : DebugInfo)
deriving DecidableEq, Repr

/-- Projection used to state facts about the populated branch. -/
def breakdownInfo? : Breakdown → Option DebugInfo
  | .noData => none
  | .info d => some d

/-- `calculate_multi_timeframe_confidence` (confidence.py lines 15-188). -/
def calculate_multi_timeframe_confidence (data : List MatchRow) (match_date : ℤ)
    (pattern_fn : MatchRow → Bool) (min_matches_7d min_matches_30d : ℤ)
    (custom_timeframes : Option (List (ℕ × ℚ))) (use_all_history : Bool) :
    ℚ × Breakdown :=
  let tfs := effectiveTimeframes data match_date custom_timeframes use_all_history
  let entries := timeframeResults data match_date pattern_fn tfs
  if entries.isEmpty then (1/2, Breakdown.noData)
  else
    let dbg := computeDebugInfo entries min_matches_7d min_matches_30d
    (dbg.final_confidence, Breakdown.info dbg)

/-! ## Risk adjustment (`v2/patterns/risk_adjustment.py`) -/

/-- The curated penalty table `PATTERN_RISK_PENALTIES` (risk_adjustment.py
lines 13-107), transcribed entry for entry. -/
def PATTERN_RISK_PENALTIES : List (String × ℚ) :=
  [("over_3_5_goals", 10/100),
   ("total_over_3_5_goals", 10/100),
   ("over_2_5_goals", 6/100),
   ("total_over_2_5_goals", 6/100),
   ("under_2_5_goals", 5/100),
   ("total_under_2_5_goals", 5/100),
   ("over_1_5_goals", 4/100),
   ("total_over_1_5_goals", 4/100),
   ("under_1_5_goals", 5/100),
   ("over_0_5_goals", 2/100),
   ("total_over_0_5_goals", 2/100),
   ("home_over_2_5_goals", 7/100),
   ("home_over_1_5_goals", 5/100),
   ("home_over_0_5_goals", 2/100),
   ("home_under_1_5_goals", 6/100),
   ("away_over_2_5_goals", 8/100),
   ("away_over_1_5_goals", 6/100),
   ("away_over_0_5_goals", 3/100),
   ("away_under_1_5_goals", 5/100),
   ("over_11_5_corners", 4/100),
   ("over_10_5_corners", 4/100),
   ("total_over_10_5_corners", 4/100),
   ("over_9_5_corners", 3/100),
   ("total_over_9_5_corners", 3/100),
   ("over_8_5_corners", 3/100),
   ("total_over_8_5_corners", 3/100),
   ("over_7_5_corners", 2/100),
   ("total_over_7_5_corners", 2/100),
   ("total_under_7_5_corners", 3/100),
   ("over_2_5_corners", 2/100),
   ("over_0_5_corners", 1/100),
   ("home_over_5_5_corners", 4/100),
   ("home_over_4_5_corners", 3/100),
   ("home_over_3_5_corners", 3/100),
   ("home_over_2_5_corners", 2/100),
   ("home_over_1_5_corners", 2/100),
   ("home_over_0_5_corners", 1/100),
   ("away_over_5_5_corners", 5/100),
   ("away_over_4_5_corners", 4/100),
   ("away_over_3_5_corners", 3/100),
   ("away_over_2_5_corners", 2/100),
   ("away_over_1_5_corners", 2/100),
   ("away_over_0_5_corners", 1/100),
   ("over_5_5_cards", 6/100),
   ("total_over_5_5_cards", 6/100),
   ("over_4_5_cards", 5/100),
   ("total_over_4_5_cards", 5/100),
   ("over_3_5_cards", 4/100),
   ("total_over_3_5_cards", 4/100),
   ("over_2_5_cards", 4/100),
   ("total_over_2_5_cards", 4/100),
   ("over_1_5_cards", 3/100),
   ("over_0_5_cards", 2/100),
   ("total_over_0_5_cards", 2/100),
   ("home_over_2_5_cards", 5/100),
   ("home_over_1_5_cards", 4/100),
   ("home_over_0_5_cards", 2/100),
   ("away_over_2_5_cards", 5/100),
   ("away_over_1_5_cards", 4/100),
   ("away_over_0_5_cards", 2/100),
   ("over_20_5_shots", 5/100),
   ("over_15_5_shots", 4/100),
   ("over_10_5_shots", 3/100),
   ("home_over_10_5_shots", 4/100),
   ("home_over_5_5_shots", 3/100),
   ("away_over_10_5_shots", 5/100),
   ("away_over_5_5_shots", 4/100),
   ("home_win", 8/100),
   ("away_win", 9/100),
   ("draw", 10/100)]

/-- `DEFAULT_RISK_PENALTY` (risk_adjustment.py line 110). -/
def DEFAULT_RISK_PENALTY : ℚ := 5/100

/-- `get_pattern_risk_penalty` (risk_adjustment.py lines 113-123):
`PATTERN_RISK_PENALTIES.get(pattern_name, DEFAULT_RISK_PENALTY)`. -/
def get_pattern_risk_penalty (pattern_name : String) : ℚ :=
  ((PATTERN_RISK_PENALTIES.find? (fun p => p.1 == pattern_name)).map
    (fun p => p.2)).getD DEFAULT_RISK_PENALTY

/-- `calculate_risk_adjusted_confidence` (risk_adjustment.py lines 126-138). -/
def calculate_risk_adjusted_confidence (confidence : ℚ) (pattern_name : String) : ℚ :=
  max 0 (min 1 (confidence - get_pattern_risk_penalty pattern_name))

/-! ## Pattern catalog (`v2/patterns/registry.py`) -/

/-- `PatternCategory` (categories.py). -/
inductive PatternCategory
  | GOALS
  | CORNERS
  | CARDS
deriving DecidableEq, Repr

/-- A `Pattern` dataclass instance that passed `__post_init__` construction
(registry.py lines 11-28).  The `callable(label_fn)` check of
`__post_init__` is vacuous here: every Lean value of type
`MatchRow → Bool` is a function. -/
structure Pattern where
  name : String
  category : PatternCategory
  label_fn : MatchRow → Bool
  default_threshold : ℚ
  min_matches : ℤ
  description : String

/-- `Pattern(...)` construction including the `__post_init__` validation
(registry.py lines 21-28): threshold must lie in [0,1] and
`min_matches >= 1`, otherwise a `ValueError` is raised. -/
def mkPattern (name : String) (category : PatternCategory)
    (label_fn : MatchRow → Bool) (default_threshold : ℚ) (min_matches : ℤ)
    (description : String) : Except String Pattern :=
  if ¬(0 ≤ default_threshold ∧ default_threshold ≤ 1) then
    Except.error (String.append (String.append "Pattern '" name)
      "': threshold must be between 0 and 1")
  else if min_matches < 1 then
    Except.error (String.append (String.append "Pattern '" name)
      "': min_matches must be >= 1")
  else
    Except.ok ⟨name, category, label_fn, default_threshold, min_matches, description⟩

/-- The registry's `_patterns` dict: name → pattern, in insertion order. -/
def PatternRegistry := List (String × Pattern)

/-- `PatternRegistry.register` (registry.py lines 38-51): a `ValueError` when
the name is already present, otherwise the pattern is added under its name. -/
def register (reg : PatternRegistry) (p : Pattern) : Except String PatternRegistry :=
  if (List.find? (fun e => e.1 == p.name) reg).isSome then
    Except.error (String.append (String.append "Pattern '" p.name)
      "' is already registered")
  else
    Except.ok (List.append reg [(p.name, p)])

/-- The module-level `register_pattern` helper (registry.py lines 101-125):
construct (and so validate) a `Pattern`, then register it. -/
def register_pattern (reg : PatternRegistry) (name : String)
    (category : PatternCategory) (label_fn : MatchRow → Bool)
    (default_threshold : ℚ) (min_matches : ℤ) (description : String) :
    Except String PatternRegistry :=
  match mkPattern name category label_fn default_threshold min_matches description with
  | Except.error e => Except.error e
  | Except.ok p => register reg p

/-! ## Best-bet selection -/

/-- The `BestBet` dataclass (simple_romanian_predictor.py lines 27-33). -/
structure BestBet where
  pattern_name : String
  confidence : ℚ
  risk_adjusted_confidence : ℚ
  threshold : ℚ
deriving DecidableEq, Repr

/-- `self.thresholds` of `SimpleRomanianPredictor`
(simple_romanian_predictor.py lines 52-68). -/
def romanianThresholds : List (String × ℚ) :=
  [("home_over_0_5_goals", 55/100),
   ("away_over_0_5_goals", 55/100),
   ("home_over_0_5_cards", 55/100),
   ("away_over_0_5_cards", 55/100),
   ("home_over_1_5_goals", 65/100),
   ("away_over_1_5_goals", 65/100),
   ("total_over_1_5_goals", 58/100),
   ("total_over_2_5_goals", 62/100),
   ("total_under_2_5_goals", 70/100),
   ("both_teams_to_score", 60/100),
   ("home_over_2_5_corners", 65/100),
   ("away_over_2_5_corners", 65/100),
   ("total_over_8_5_corners", 60/100),
   ("home_over_1_5_cards", 65/100),
   ("away_over_1_5_cards", 65/100)]

/-- `self.thresholds[pattern_name]` with the `pattern_name not in
self.thresholds` membership test (simple_romanian_predictor.py
lines 100-104). -/
def thresholdLookup (thresholds : List (String × ℚ)) (name : String) : Option ℚ :=
  (List.find? (fun p => p.1 == name) thresholds).map (fun p => p.2)

/-- The running state of the selection loop (simple_romanian_predictor.py
lines 94-96). -/
structure SelState where
  best_pattern : Option String
  best_confidence : ℚ
  best_risk_adjusted : ℚ
deriving Repr

/-- One iteration of the pattern loop (simple_romanian_predictor.py
lines 99-133): skip patterns without a configured threshold, compute the
risk-adjusted confidence, and take over the running best when it clears the
threshold and strictly beats the current best.  `confOf` abstracts the
per-pattern confidence computed on lines 109-117 by
`calculate_multi_timeframe_confidence` on the fixed historical data and
match date of the call. -/
def predictStep (thresholds : List (String × ℚ)) (confOf : String → ℚ)
    (st : SelState) (pattern_name : String) : SelState :=
  match thresholdLookup thresholds pattern_name with
  | none => st
  | some threshold =>
    let confidence := confOf pattern_name
    let risk_adjusted := calculate_risk_adjusted_confidence confidence pattern_name
    if threshold ≤ risk_adjusted ∧ st.best_risk_adjusted < risk_adjusted then
      ⟨some pattern_name, confidence, risk_adjusted⟩
    else st

/-- `SimpleRomanianPredictor.predict_match` (simple_romanian_predictor.py
lines 70-143), on its default `use_ensemble=True` path: fold the selection
loop over the registered pattern names and package the winner, if any, as a
`BestBet` (whose threshold field re-reads `self.thresholds[best_pattern]`). -/
def predict_match (patterns : List String) (thresholds : List (String × ℚ))
    (confOf : String → ℚ) : Option BestBet :=
  let st := patterns.foldl (predictStep thresholds confOf) ⟨none, 0, 0⟩
  match st.best_pattern with
  | none => none
  | some name =>
    some ⟨name, st.best_confidence, st.best_risk_adjusted,
      (thresholdLookup thresholds name).getD 0⟩

/-- A pattern name is a candidate of the Romanian selection loop exactly when
it has a configured threshold which its risk-adjusted confidence meets. -/
def isCandidate (thresholds : List (String × ℚ)) (confOf : String → ℚ)
    (name : String) : Prop :=
  ∃ thr, thresholdLookup thresholds name = some thr ∧
    thr ≤ calculate_risk_adjusted_confidence (confOf name) name

instance (thresholds : List (String × ℚ)) (confOf : String → ℚ) (name : String) :
    Decidable (isCandidate thresholds confOf name) := by
  unfold isCandidate
  cases thresholdLookup thresholds name with
  | none => exact .isFalse (by simp)
  | some t =>
      exact decidable_of_iff
        (t ≤ calculate_risk_adjusted_confidence (confOf name) name) (by simp)

/-! The Premier-League variant (`v2/simple_premier_league_predictor.py`
lines 343-414): candidacy there is decided on the *raw* calibrated
confidence against the (possibly corner-adjusted) threshold, and only the
subsequent selection among the admitted predictions uses the risk-adjusted
confidence. -/

/-- One per-pattern evaluation of `SimplePremierLeaguePredictor.predict`:
the pattern name, the calibrated confidence of lines 345-347, and the
adjusted threshold of lines 314-333.  Both are computed upstream of the
candidacy test; the spec treats those heuristics as league configuration. -/
structure PLPred where
  pattern : String
  confidence : ℚ
  adjusted_threshold : ℚ
deriving DecidableEq, Repr

/-- Stable insert for the descending `predictions.sort(key=confidence,
reverse=True)` of line 364. -/
def plInsertDesc (x : PLPred) : List PLPred → List PLPred
  | [] => [x]
  | y :: ys =>
    if y.confidence ≤ x.confidence then x :: y :: ys else y :: plInsertDesc x ys

/-- `predictions.sort(key=lambda x: x['confidence'], reverse=True)`. -/
def plSortDesc (l : List PLPred) : List PLPred := l.foldr plInsertDesc []

/-- Python's `max(l, key=...)`: the first element attaining the maximal key. -/
def plPickBest : List (PLPred × ℚ) → Option (PLPred × ℚ)
  | [] => none
  | x :: xs => some (xs.foldl (fun b y => if b.2 < y.2 then y else b) x)

/-- The selection core of `SimplePremierLeaguePredictor.predict` (lines
349-414): admit a prediction when `confidence >= adjusted_threshold`
(line 350), sort by confidence, attach risk-adjusted confidences (lines
369-376), and return the prediction with the highest risk-adjusted
confidence as a `BestBet`, or `None` when nothing was admitted. -/
def plSelectBest (evals : List PLPred) : Option BestBet :=
  let predictions := evals.filter (fun e => decide (e.adjusted_threshold ≤ e.confidence))
  let sorted := plSortDesc predictions
  let withRA := sorted.map
    (fun p => (p, calculate_risk_adjusted_confidence p.confidence p.pattern))
  match plPickBest withRA with
  | none => none
  | some b => some ⟨b.1.pattern, b.1.confidence, b.2, b.1.adjusted_threshold⟩

/-! ## Theorems -/

/-- C4: for every input on which `calculate_multi_timeframe_confidence`
returns, the returned `final_confidence` lies in the closed interval [0,1],
even when the trend, consistency and sample-size adjustments stack in the
same direction: the no-data branch returns 1/2 and the populated branch
clamps explicitly. -/
theorem C4_final_confidence_in_unit_interval
    (data : List MatchRow) (match_date : ℤ) (pattern_fn : MatchRow → Bool)
    (min_matches_7d min_matches_30d : ℤ)
    (custom_timeframes : Option (List (ℕ × ℚ))) (use_all_history : Bool) :
    0 ≤ (calculate_multi_timeframe_confidence data match_date pattern_fn
        min_matches_7d min_matches_30d custom_timeframes use_all_history).1 ∧
    (calculate_multi_timeframe_confidence data match_date pattern_fn
        min_matches_7d min_matches_30d custom_timeframes use_all_history).1 ≤ 1 := by
  unfold calculate_multi_timeframe_confidence
  dsimp only
  split
  · norm_num
  · refine ⟨?_, ?_⟩
    · simp only [computeDebugInfo]
      exact le_max_left 0 _
    · simp only [computeDebugInfo]
      exact max_le (by norm_num) (min_le_left _ _)

/-- C6: `calculate_risk_adjusted_confidence` returns the confidence minus the
looked-up penalty, clamped to [0,1], and a pattern name that matches no key
of the curated table receives the default penalty 0.05. -/
theorem C6_risk_adjusted_confidence (confidence : ℚ) (pattern_name : String) :
    calculate_risk_adjusted_confidence confidence pattern_name =
      max 0 (min 1 (confidence - get_pattern_risk_penalty pattern_name)) ∧
    0 ≤ calculate_risk_adjusted_confidence confidence pattern_name ∧
    calculate_risk_adjusted_confidence confidence pattern_name ≤ 1 ∧
    ((∀ p ∈ PATTERN_RISK_PENALTIES, p.1 ≠ pattern_name) →
      get_pattern_risk_penalty pattern_name = 5/100) := by
  refine ⟨rfl, le_max_left 0 _, max_le (by norm_num) (min_le_left _ _), ?_⟩
  intro h
  unfold get_pattern_risk_penalty
  rw [List.find?_eq_none.mpr]
  · rfl
  · intro p hp
    simpa using h p hp

/-- Closed instantiation of `C6_risk_adjusted_confidence` at a concrete
confidence and a pattern name absent from the table. -/
theorem C6_risk_adjusted_confidence_witness :
    calculate_risk_adjusted_confidence (3/4) "over_6_5_goals" =
      max 0 (min 1 (3/4 - get_pattern_risk_penalty "over_6_5_goals")) ∧
    get_pattern_risk_penalty "over_6_5_goals" = 5/100 :=
  ⟨(C6_risk_adjusted_confidence (3/4) "over_6_5_goals").1,
   (C6_risk_adjusted_confidence (3/4) "over_6_5_goals").2.2.2 (by decide)⟩

/-- C9: the confidence engine, the risk adjustment and the best-bet selection
are pure functions of their inputs in this embedding — two evaluations on
identical inputs (corpus, as-of date, predicate, weights, minimums,
thresholds, pattern list) produce identical outputs. -/
theorem C9_determinism
    (data₁ data₂ : List MatchRow) (md₁ md₂ : ℤ) (pf₁ pf₂ : MatchRow → Bool)
    (m7₁ m7₂ m30₁ m30₂ : ℤ) (ct₁ ct₂ : Option (List (ℕ × ℚ))) (uah₁ uah₂ : Bool)
    (c₁ c₂ : ℚ) (n₁ n₂ : String) (pats₁ pats₂ : List String)
    (th₁ th₂ : List (String × ℚ)) (co₁ co₂ : String → ℚ)
    (hdata : data₁ = data₂) (hmd : md₁ = md₂) (hpf : pf₁ = pf₂)
    (h7 : m7₁ = m7₂) (h30 : m30₁ = m30₂) (hct : ct₁ = ct₂) (huah : uah₁ = uah₂)
    (hc : c₁ = c₂) (hn : n₁ = n₂) (hpats : pats₁ = pats₂) (hth : th₁ = th₂)
    (hco : co₁ = co₂) :
    calculate_multi_timeframe_confidence data₁ md₁ pf₁ m7₁ m30₁ ct₁ uah₁ =
      calculate_multi_timeframe_confidence data₂ md₂ pf₂ m7₂ m30₂ ct₂ uah₂ ∧
    calculate_risk_adjusted_confidence c₁ n₁ = calculate_risk_adjusted_confidence c₂ n₂ ∧
    predict_match pats₁ th₁ co₁ = predict_match pats₂ th₂ co₂ := by
  subst hdata hmd hpf h7 h30 hct huah hc hn hpats hth hco
  exact ⟨rfl, rfl, rfl⟩

/-- Closed instantiation of `C9_determinism` on a concrete repeated input. -/
theorem C9_determinism_witness :
    calculate_multi_timeframe_confidence [⟨999, 2, 1, 5, 3, 1, 2⟩] 1000
        (fun r => decide (2 < r.fthg + r.ftag)) 3 10 none true =
      calculate_multi_timeframe_confidence [⟨999, 2, 1, 5, 3, 1, 2⟩] 1000
        (fun r => decide (2 < r.fthg + r.ftag)) 3 10 none true ∧
    calculate_risk_adjusted_confidence (7/10) "draw" =
      calculate_risk_adjusted_confidence (7/10) "draw" ∧
    predict_match ["draw"] romanianThresholds (fun _ => 7/10) =
      predict_match ["draw"] romanianThresholds (fun _ => 7/10) :=
  C9_determinism _ _ _ _ _ _ _ _ _ _ _ _ _ _ _ _ _ _ _ _ _ _ _ _
    rfl rfl rfl rfl rfl rfl rfl rfl rfl rfl rfl rfl

/-- C8: when no timeframe window contains any matches,
`calculate_multi_timeframe_confidence` does not fail: it returns the neutral
`final_confidence = 0.5` together with the explicit no-data breakdown. -/
theorem C8_no_data_default (data : List MatchRow) (match_date : ℤ)
    (pattern_fn : MatchRow → Bool) (min_matches_7d min_matches_30d : ℤ)
    (custom_timeframes : Option (List (ℕ × ℚ))) (use_all_history : Bool)
    (h : ∀ dw ∈ effectiveTimeframes data match_date custom_timeframes use_all_history,
      tfData data match_date dw.1 = []) :
    calculate_multi_timeframe_confidence data match_date pattern_fn
      min_matches_7d min_matches_30d custom_timeframes use_all_history =
      (1/2, Breakdown.noData) := by
  have hentries : timeframeResults data match_date pattern_fn
      (effectiveTimeframes data match_date custom_timeframes use_all_history) = [] := by
    unfold timeframeResults
    rw [List.filterMap_eq_nil_iff]
    intro dw hdw
    simp only [h dw hdw]
    norm_num
  unfold calculate_multi_timeframe_confidence
  dsimp only
  rw [hentries]
  norm_num

/-- Closed instantiation of `C8_no_data_default` on the empty corpus. -/
theorem C8_no_data_default_witness :
    calculate_multi_timeframe_confidence [] 1000 (fun r => decide (1 < r.fthg))
      3 10 none true = (1/2, Breakdown.noData) :=
  C8_no_data_default [] 1000 (fun r => decide (1 < r.fthg)) 3 10 none true
    (by decide)

/-- The corpus exhibiting the C5 discrepancy: as of day 1000 there is one
match in the trailing 7-day window (day 999) and eight in the trailing
30-day window (day 999 and days 975-981). -/
def c5corpus : List MatchRow :=
  [⟨999, 2, 1, 5, 3, 1, 2⟩, ⟨975, 2, 1, 5, 3, 1, 2⟩, ⟨976, 2, 1, 5, 3, 1, 2⟩,
   ⟨977, 2, 1, 5, 3, 1, 2⟩, ⟨978, 2, 1, 5, 3, 1, 2⟩, ⟨979, 2, 1, 5, 3, 1, 2⟩,
   ⟨980, 2, 1, 5, 3, 1, 2⟩, ⟨981, 2, 1, 5, 3, 1, 2⟩]

/-- C5 counterexample: with configured minimums `min_matches_7d = 2` and
`min_matches_30d = 8` (exactly what `SimpleRomanianPredictor` passes) and
observed counts 1 and 8, the claim's condition for the 'adequate' tier
(7-day count ≥ minimum − 1 and 30-day count ≥ minimum − 2, while not both
counts reach their minimums) is satisfied, so the claim predicts the
adjustment −0.02; the code applies its extra floors `max(2, ·)`/`max(8, ·)`
(confidence.py line 154) and returns 'insufficient' with −0.05. -/
theorem C5_counterexample :
    (breakdownInfo? (calculate_multi_timeframe_confidence c5corpus 1000
        (fun _ => true) 2 8 none true).2).map
      (fun d => (d.matches_7d, d.matches_30d, d.sample_quality, d.sample_adjustment)) =
      some (1, 8, SampleQuality.insufficient, -(5/100)) ∧
    ((2 : ℤ) - 1 ≤ (1 : ℤ) ∧ (8 : ℤ) - 2 ≤ (8 : ℤ)) ∧
    ¬((2 : ℤ) ≤ (1 : ℤ) ∧ (8 : ℤ) ≤ (8 : ℤ)) ∧
    (-(5/100) : ℚ) ≠ -(2/100) := by
  refine ⟨by with_unfolding_all rfl, by omega, by omega, by norm_num⟩

/-- C5 as amended: on every populated result, the sample tier is 'sufficient'
with adjustment 0 when both window counts reach their configured minimums;
'adequate' with −0.02 otherwise when the 7-day count is at least
`max 2 (min_matches_7d − 1)` and the 30-day count at least
`max 8 (min_matches_30d − 2)`; and 'insufficient' with −0.05 otherwise. -/
theorem C5_sample_size_amended (data : List MatchRow) (match_date : ℤ)
    (pattern_fn : MatchRow → Bool) (min_matches_7d min_matches_30d : ℤ)
    (custom_timeframes : Option (List (ℕ × ℚ))) (use_all_history : Bool)
    (dbg : DebugInfo)
    (h : (calculate_multi_timeframe_confidence data match_date pattern_fn
        min_matches_7d min_matches_30d custom_timeframes use_all_history).2 =
      Breakdown.info dbg) :
    ((dbg.sample_quality, dbg.sample_adjustment) = (SampleQuality.sufficient, 0) ↔
      (min_matches_7d ≤ (dbg.matches_7d : ℤ) ∧ min_matches_30d ≤ (dbg.matches_30d : ℤ))) ∧
    ((dbg.sample_quality, dbg.sample_adjustment) = (SampleQuality.adequate, -(2/100)) ↔
      (¬(min_matches_7d ≤ (dbg.matches_7d : ℤ) ∧ min_matches_30d ≤ (dbg.matches_30d : ℤ)) ∧
       (2 ≤ (dbg.matches_7d : ℤ) ∧ min_matches_7d - 1 ≤ (dbg.matches_7d : ℤ)) ∧
       (8 ≤ (dbg.matches_30d : ℤ) ∧ min_matches_30d - 2 ≤ (dbg.matches_30d : ℤ)))) ∧
    ((dbg.sample_quality, dbg.sample_adjustment) = (SampleQuality.insufficient, -(5/100)) ↔
      (¬(min_matches_7d ≤ (dbg.matches_7d : ℤ) ∧ min_matches_30d ≤ (dbg.matches_30d : ℤ)) ∧
       ¬((2 ≤ (dbg.matches_7d : ℤ) ∧ min_matches_7d - 1 ≤ (dbg.matches_7d : ℤ)) ∧
         (8 ≤ (dbg.matches_30d : ℤ) ∧ min_matches_30d - 2 ≤ (dbg.matches_30d : ℤ))))) := by
  have hdbg : dbg = computeDebugInfo
      (timeframeResults data match_date pattern_fn
        (effectiveTimeframes data match_date custom_timeframes use_all_history))
      min_matches_7d min_matches_30d := by
    revert h
    unfold calculate_multi_timeframe_confidence
    dsimp only
    split
    · intro h; exact absurd h (by simp)
    · intro h
      simpa using h.symm
  subst hdbg
  simp only [computeDebugInfo]
  unfold sampleAdjustment
  constructor
  · split
    · rename_i hcase
      simp only [Prod.mk.injEq, and_true, true_iff]
      exact hcase
    · split <;> simp <;> omega
  constructor
  · split
    · rename_i hcase
      simp only [Prod.mk.injEq]
      constructor
      · intro hh; exact absurd hh.1 (by decide)
      · intro hh; exact absurd hcase hh.1
    · split
      · rename_i h1 hcase
        simp only [Prod.mk.injEq, and_self, true_iff]
        rw [max_le_iff, max_le_iff] at hcase
        exact ⟨h1, hcase.1, hcase.2⟩
      · rename_i h1 hcase
        simp only [Prod.mk.injEq]
        constructor
        · intro hh; exact absurd hh.1 (by decide)
        · intro hh
          rw [max_le_iff, max_le_iff] at hcase
          exact absurd ⟨hh.2.1, hh.2.2⟩ hcase
  · split
    · rename_i hcase
      simp only [Prod.mk.injEq]
      constructor
      · intro hh; exact absurd hh.1 (by decide)
      · intro hh; exact absurd hcase hh.1
    · split
      · rename_i h1 hcase
        simp only [Prod.mk.injEq]
        constructor
        · intro hh; exact absurd hh.1 (by decide)
        · intro hh
          rw [max_le_iff, max_le_iff] at hcase
          exact absurd ⟨hcase.1, hcase.2⟩ hh.2
      · rename_i h1 hcase
        simp only [Prod.mk.injEq, and_self, true_iff]
        rw [max_le_iff, max_le_iff] at hcase
        refine ⟨h1, fun hh => hcase ⟨hh.1, hh.2⟩⟩

/-- The populated breakdown computed for the one-match corpus `[day 999]`
as of day 1000 with the default minimums (3, 10). -/
def c5dbg : DebugInfo :=
  { ensemble_confidence := 1
    final_confidence := 24/25
    timeframe_results :=
      [⟨7, 1, 1, 3/10⟩, ⟨14, 1, 1, 23/100⟩, ⟨30, 1, 1, 9/50⟩,
       ⟨90, 1, 1, 7/50⟩, ⟨365, 1, 1, 1/10⟩, ⟨730, 1, 1, 1/20⟩]
    trend := .stable
    trend_adjustment := 0
    trend_7_vs_30 := 0
    trend_30_vs_season := 0
    trend_season_vs_all := 0
    consistency := .high
    consistency_adjustment := 1/100
    std_sq := 0
    sample_quality := .insufficient
    sample_adjustment := -(5/100)
    matches_7d := 1
    matches_30d := 1
    all_history_matches := 0
    all_history_success := 1 }

/-- Closed instantiation of `C5_sample_size_amended`: a single match within
the 7-day window, minimums (3, 10), lands in the 'insufficient' tier. -/
theorem C5_sample_size_amended_witness :
    (c5dbg.sample_quality, c5dbg.sample_adjustment) =
      (SampleQuality.insufficient, -(5/100)) :=
  ((C5_sample_size_amended [⟨999, 2, 1, 5, 3, 1, 2⟩] 1000 (fun _ => true) 3 10
      none true c5dbg (by with_unfolding_all rfl)).2.2).mpr (by decide)

/-- `mkPattern` fails exactly on an out-of-range threshold or an invalid
minimum match count. -/
theorem mkPattern_error_iff (name : String) (category : PatternCategory)
    (label_fn : MatchRow → Bool) (default_threshold : ℚ) (min_matches : ℤ)
    (description : String) :
    (∃ msg, mkPattern name category label_fn default_threshold min_matches
        description = Except.error msg) ↔
      (default_threshold < 0 ∨ 1 < default_threshold ∨ min_matches < 1) := by
  unfold mkPattern
  split_ifs with h1 h2
  · exact iff_of_true ⟨_, rfl⟩ (Or.inr (Or.inr h2))
  · refine iff_of_false ?_ ?_
    · rintro ⟨msg, hmsg⟩
      exact hmsg
    · rintro (h | h | h)
      · exact absurd h1.1 (not_le.mpr h)
      · exact absurd h1.2 (not_le.mpr h)
      · exact absurd h h2
  · rw [not_and_or, not_le, not_le] at h1
    refine iff_of_true ⟨_, rfl⟩ ?_
    rcases h1 with h | h
    · exact Or.inl h
    · exact Or.inr (Or.inl h)

/-- `mkPattern` only succeeds with the fields it was given, name included. -/
theorem mkPattern_ok_eq (name : String) (category : PatternCategory)
    (label_fn : MatchRow → Bool) (default_threshold : ℚ) (min_matches : ℤ)
    (description : String) (p : Pattern)
    (h : mkPattern name category label_fn default_threshold min_matches description =
      Except.ok p) :
    p = ⟨name, category, label_fn, default_threshold, min_matches, description⟩ := by
  unfold mkPattern at h
  split_ifs at h
  all_goals first
    | exact Except.noConfusion h
    | (injection h with h; exact h.symm)

/-- `register` fails exactly on a name collision, and otherwise appends. -/
theorem register_eq (reg : PatternRegistry) (p : Pattern) :
    ((List.find? (fun e => e.1 == p.name) reg).isSome →
      ∃ msg, register reg p = Except.error msg) ∧
    (¬(List.find? (fun e => e.1 == p.name) reg).isSome →
      register reg p = Except.ok (List.append reg [(p.name, p)])) := by
  unfold register
  constructor
  · intro h
    rw [if_pos h]
    exact ⟨_, rfl⟩
  · intro h
    rw [if_neg h]

/-- C7: `register_pattern` (`Pattern` construction and validation followed by
registration) raises a `ValueError` exactly when the name is already
registered, the threshold lies outside [0,1], or `min_matches < 1`; a
successful call adds the pattern under its name, and re-registering that
name afterwards always fails. -/
theorem C7_register_validation (reg : PatternRegistry) (name : String)
    (category : PatternCategory) (label_fn : MatchRow → Bool)
    (default_threshold : ℚ) (min_matches : ℤ) (description : String) :
    ((∃ msg, register_pattern reg name category label_fn default_threshold
        min_matches description = Except.error msg) ↔
      ((List.find? (fun e => e.1 == name) reg).isSome ∨
        default_threshold < 0 ∨ 1 < default_threshold ∨ min_matches < 1)) ∧
    (∀ reg', register_pattern reg name category label_fn default_threshold
        min_matches description = Except.ok reg' →
      ((List.find? (fun e => e.1 == name) reg').map (fun e => e.2) =
        some ⟨name, category, label_fn, default_threshold, min_matches, description⟩ ∧
       ∀ category2 label_fn2 thr2 mm2 desc2, ∃ msg,
         register_pattern reg' name category2 label_fn2 thr2 mm2 desc2 =
           Except.error msg)) := by
  cases hm : mkPattern name category label_fn default_threshold min_matches description with
  | error e =>
    have hinv : default_threshold < 0 ∨ 1 < default_threshold ∨ min_matches < 1 :=
      (mkPattern_error_iff name category label_fn default_threshold min_matches
        description).mp ⟨e, hm⟩
    constructor
    · refine iff_of_true ⟨e, ?_⟩ (Or.inr hinv)
      unfold register_pattern
      rw [hm]
    · intro reg' hok
      unfold register_pattern at hok
      rw [hm] at hok
      exact Except.noConfusion hok
  | ok p =>
    have hvalid : ¬(default_threshold < 0 ∨ 1 < default_threshold ∨ min_matches < 1) := by
      intro hinv
      rcases (mkPattern_error_iff name category label_fn default_threshold min_matches
        description).mpr hinv with ⟨msg, hmsg⟩
      rw [hm] at hmsg
      exact Except.noConfusion hmsg
    have hp : p = ⟨name, category, label_fn, default_threshold, min_matches, description⟩ :=
      mkPattern_ok_eq name category label_fn default_threshold min_matches description p hm
    have hrp : register_pattern reg name category label_fn default_threshold
        min_matches description = register reg p := by
      unfold register_pattern
      rw [hm]
    by_cases hdup : (List.find? (fun e => e.1 == name) reg).isSome
    · constructor
      · rcases (register_eq reg p).1 (by rw [hp]; exact hdup) with ⟨msg, hmsg⟩
        exact iff_of_true ⟨msg, by rw [hrp, hmsg]⟩ (Or.inl hdup)
      · intro reg' hok
        rcases (register_eq reg p).1 (by rw [hp]; exact hdup) with ⟨msg, hmsg⟩
        rw [hrp, hmsg] at hok
        exact Except.noConfusion hok
    · have hok : register_pattern reg name category label_fn default_threshold
          min_matches description = Except.ok (List.append reg [(name, p)]) := by
        rw [hrp, ((register_eq reg p).2 (by rw [hp]; exact hdup))]
        rw [hp]
      constructor
      · refine iff_of_false ?_ ?_
        · rintro ⟨msg, hmsg⟩
          rw [hok] at hmsg
          exact Except.noConfusion hmsg
        · rintro (h | h)
          · exact hdup h
          · exact hvalid h
      · intro reg' hok2
        rw [hok] at hok2
        injection hok2 with hok2
        subst hok2
        have hfind : List.find? (fun e => e.1 == name) (List.append reg [(name, p)]) =
            some (name, p) := by
          rw [List.append_eq, List.find?_append,
            Option.not_isSome_iff_eq_none.mp hdup]
          simp
        constructor
        · rw [hfind, hp]
          rfl
        · intro category2 label_fn2 thr2 mm2 desc2
          cases hm2 : mkPattern name category2 label_fn2 thr2 mm2 desc2 with
          | error e2 =>
            refine ⟨e2, ?_⟩
            unfold register_pattern
            rw [hm2]
          | ok p2 =>
            have hp2 : p2.name = name := by
              rw [mkPattern_ok_eq name category2 label_fn2 thr2 mm2 desc2 p2 hm2]
            rcases (register_eq (List.append reg [(name, p)]) p2).1
                (by rw [hp2]; exact Option.isSome_iff_exists.mpr ⟨_, hfind⟩) with ⟨msg, hmsg⟩
            refine ⟨msg, ?_⟩
            unfold register_pattern
            rw [hm2]
            exact hmsg
/-- Closed instantiation of `C7_register_validation`: registering a valid
pattern into the empty registry and then re-registering its name fails. -/
theorem C7_register_validation_witness :
    ∃ msg, register_pattern
      [("home_over_1_5_goals",
        (⟨"home_over_1_5_goals", PatternCategory.GOALS, fun r => decide (1 < r.fthg),
          65/100, 20, "Home team scores over 1.5 goals"⟩ : Pattern))]
      "home_over_1_5_goals" PatternCategory.GOALS (fun r => decide (1 < r.fthg))
      (65/100) 20 "Home team scores over 1.5 goals" = Except.error msg := by
  have h := (C7_register_validation [] "home_over_1_5_goals" PatternCategory.GOALS
    (fun r => decide (1 < r.fthg)) (65/100) 20 "Home team scores over 1.5 goals").2
  have hok : register_pattern [] "home_over_1_5_goals" PatternCategory.GOALS
      (fun r => decide (1 < r.fthg)) (65/100) 20 "Home team scores over 1.5 goals" =
      Except.ok [("home_over_1_5_goals",
        ⟨"home_over_1_5_goals", PatternCategory.GOALS, fun r => decide (1 < r.fthg),
          65/100, 20, "Home team scores over 1.5 goals"⟩)] := by
    with_unfolding_all rfl
  exact (h _ hok).2 PatternCategory.GOALS (fun r => decide (1 < r.fthg)) (65/100) 20
    "Home team scores over 1.5 goals"

/-- `earliestDate` is `none` exactly on the empty corpus. -/
theorem earliestDate_eq_none_iff (l : List MatchRow) :
    earliestDate l = none ↔ l = [] := by
  cases l with
  | nil => simp [earliestDate]
  | cons r rs =>
    unfold earliestDate
    cases earliestDate rs <;> simp

/-- The earliest date bounds every date in the corpus. -/
theorem earliestDate_le_of_mem (l : List MatchRow) (e : ℤ)
    (he : earliestDate l = some e) : ∀ r ∈ l, e ≤ r.date := by
  induction l generalizing e with
  | nil => exact fun r hr => absurd hr (List.not_mem_nil r)
  | cons a as ih =>
    intro r hr
    unfold earliestDate at he
    rcases List.mem_cons.mp hr with h | h
    · subst h
      cases hae : earliestDate as with
      | none =>
        rw [hae] at he
        injection he with he
        omega
      | some m =>
        rw [hae] at he
        injection he with he
        omega
    · cases hae : earliestDate as with
      | none =>
        rw [earliestDate_eq_none_iff] at hae
        subst hae
        cases h
      | some m =>
        rw [hae] at he
        injection he with he
        have hm := ih m hae r h
        omega

/-- C10: when the corpus has at least one record strictly before the as-of
date but every such record is more than 730 days old, the default
configuration still adds the zero-weight all-history window, so the no-data
branch is not taken; the total used weight is 0, `ensemble_confidence`
falls back to 0.5, and the adjustments (trend stable 0, consistency high
+0.01, sample insufficient −0.05) yield `final_confidence = 0.46`. -/
theorem C10_stale_corpus_edge_case (data : List MatchRow) (match_date : ℤ)
    (pattern_fn : MatchRow → Bool)
    (h₁ : ∃ r ∈ data, r.date < match_date)
    (h₂ : ∀ r ∈ data, r.date < match_date → 730 < match_date - r.date) :
    ∃ dbg,
      calculate_multi_timeframe_confidence data match_date pattern_fn 3 10 none true =
        (23/50, Breakdown.info dbg) ∧
      dbg.ensemble_confidence = 1/2 ∧
      dbg.final_confidence = 23/50 ∧
      dbg.trend = Trend.stable ∧ dbg.trend_adjustment = 0 ∧
      dbg.consistency = Consistency.high ∧ dbg.consistency_adjustment = 1/100 ∧
      dbg.sample_quality = SampleQuality.insufficient ∧
      dbg.sample_adjustment = -(5/100) := by
  obtain ⟨r0, hr0, hr0lt⟩ := h₁
  have hr0old : r0.date < match_date - 730 := by
    have := h₂ r0 hr0 hr0lt
    omega
  cases he : earliestDate data with
  | none =>
    rw [earliestDate_eq_none_iff] at he
    subst he
    cases hr0
  | some e0 =>
    have he0 : e0 ≤ r0.date := earliestDate_le_of_mem data e0 he r0 hr0
    have hcond : 730 < match_date - e0 := by omega
    have htfs : effectiveTimeframes data match_date none true =
        defaultTimeframes ++ [(99999, 0)] := by
      simp only [effectiveTimeframes, he]
      rw [if_pos trivial, if_pos hcond]
    have hwin : ∀ d : ℕ, d ≠ 99999 → (d : ℤ) ≤ 730 →
        tfData data match_date d = [] := by
      intro d hd hdle
      unfold tfData
      rw [if_neg hd, List.filter_eq_nil_iff]
      intro r hr
      simp only [decide_eq_true_eq, not_and, not_lt]
      intro hge
      by_cases hlt : r.date < match_date
      · exfalso
        have := h₂ r hr hlt
        omega
      · omega
    have hne : tfData data match_date 99999 ≠ [] := by
      unfold tfData
      rw [if_pos rfl]
      refine List.ne_nil_of_mem (List.mem_filter.mpr ⟨hr0, ?_⟩)
      simpa using hr0lt
    have hlen : 0 < (tfData data match_date 99999).length :=
      List.length_pos.mpr hne
    have h7 : tfData data match_date 7 = [] := hwin 7 (by decide) (by norm_num)
    have h14 : tfData data match_date 14 = [] := hwin 14 (by decide) (by norm_num)
    have h30 : tfData data match_date 30 = [] := hwin 30 (by decide) (by norm_num)
    have h90 : tfData data match_date 90 = [] := hwin 90 (by decide) (by norm_num)
    have h365 : tfData data match_date 365 = [] := hwin 365 (by decide) (by norm_num)
    have h730 : tfData data match_date 730 = [] := hwin 730 (by decide) (by norm_num)
    have hentries : timeframeResults data match_date pattern_fn
        (defaultTimeframes ++ [(99999, 0)]) =
        [⟨99999, (tfData data match_date 99999).length,
          hitRate pattern_fn (tfData data match_date 99999), 0⟩] := by
      unfold timeframeResults defaultTimeframes
      simp [h7, h14, h30, h90, h365, h730, hlen]
    refine ⟨computeDebugInfo
      [⟨99999, (tfData data match_date 99999).length,
        hitRate pattern_fn (tfData data match_date 99999), 0⟩] 3 10, ?_, ?_, ?_, ?_, ?_,
      ?_, ?_, ?_, ?_⟩
    · unfold calculate_multi_timeframe_confidence
      dsimp only
      rw [htfs, hentries]
      rw [if_neg (by simp)]
      refine Prod.ext ?_ rfl
      simp only [computeDebugInfo, ensembleConfidence, totalWeight, weightedSum,
        usedEntries, confidencesList, tfGet]
      norm_num [sampleAdjustment]
    · simp only [computeDebugInfo, ensembleConfidence, totalWeight, weightedSum,
        usedEntries]
      norm_num
    · simp only [computeDebugInfo, ensembleConfidence, totalWeight, weightedSum,
        usedEntries, confidencesList, tfGet]
      norm_num [sampleAdjustment]
    · simp only [computeDebugInfo, ensembleConfidence, totalWeight, weightedSum,
        usedEntries, tfGet]
      norm_num
    · simp only [computeDebugInfo, ensembleConfidence, totalWeight, weightedSum,
        usedEntries, tfGet]
      norm_num
    · simp only [computeDebugInfo, ensembleConfidence, totalWeight, weightedSum,
        usedEntries, confidencesList, tfGet]
      norm_num
    · simp only [computeDebugInfo, ensembleConfidence, totalWeight, weightedSum,
        usedEntries, confidencesList, tfGet]
      norm_num
    · simp only [computeDebugInfo, tfGet]
      norm_num [sampleAdjustment]
    · simp only [computeDebugInfo, tfGet]
      norm_num [sampleAdjustment]

/-- Closed instantiation of `C10_stale_corpus_edge_case`: a single record
1000 days before the as-of date. -/
theorem C10_stale_corpus_edge_case_witness :
    ∃ dbg,
      calculate_multi_timeframe_confidence [⟨0, 2, 1, 5, 3, 1, 2⟩] 1000
        (fun r => decide (1 < r.fthg)) 3 10 none true =
        (23/50, Breakdown.info dbg) ∧
      dbg.ensemble_confidence = 1/2 ∧
      dbg.final_confidence = 23/50 ∧
      dbg.trend = Trend.stable ∧ dbg.trend_adjustment = 0 ∧
      dbg.consistency = Consistency.high ∧ dbg.consistency_adjustment = 1/100 ∧
      dbg.sample_quality = SampleQuality.insufficient ∧
      dbg.sample_adjustment = -(5/100) :=
  C10_stale_corpus_edge_case [⟨0, 2, 1, 5, 3, 1, 2⟩] 1000 (fun r => decide (1 < r.fthg))
    (by refine ⟨⟨0, 2, 1, 5, 3, 1, 2⟩, ?_, ?_⟩ <;> simp)
    (by intro r hr _; simp at hr; subst hr; simp)

/-- The positive-weight populated entries of `timeframe_results`, recovered
window by window from the timeframe table. -/
theorem usedEntries_timeframeResults (data : List MatchRow) (match_date : ℤ)
    (pattern_fn : MatchRow → Bool) (tfs : List (ℕ × ℚ)) :
    usedEntries (timeframeResults data match_date pattern_fn tfs) =
      (tfs.filter (fun dw =>
        decide (0 < dw.2) && decide (tfData data match_date dw.1 ≠ []))).map
        (fun dw => ⟨dw.1, (tfData data match_date dw.1).length,
          hitRate pattern_fn (tfData data match_date dw.1), dw.2⟩) := by
  induction tfs with
  | nil => rfl
  | cons dw rest ih =>
    unfold timeframeResults at ih ⊢
    unfold usedEntries at ih ⊢
    by_cases hne : tfData data match_date dw.1 = []
    · have hlen : ¬(0 < (tfData data match_date dw.1).length) := by
        rw [hne]
        simp
      simp [List.filterMap_cons, List.filter_cons, hlen, hne, ih]
    · have hlen : 0 < (tfData data match_date dw.1).length :=
        List.length_pos.mpr hne
      by_cases hpos : 0 < dw.2
      · simp [List.filterMap_cons, List.filter_cons, hlen, hne, hpos, ih]
      · simp [List.filterMap_cons, List.filter_cons, hlen, hne, hpos, ih]

/-- C3: when at least one window has positive weight and at least one match,
the populated breakdown is returned and its `ensemble_confidence` is the
weighted mean of the hit rates of exactly the windows with positive weight
and at least one match, normalized by the sum of exactly those windows'
weights; empty windows contribute to neither sum. -/
theorem C3_ensemble_normalization (data : List MatchRow) (match_date : ℤ)
    (pattern_fn : MatchRow → Bool) (min_matches_7d min_matches_30d : ℤ)
    (custom_timeframes : Option (List (ℕ × ℚ))) (use_all_history : Bool)
    (h : ∃ dw ∈ effectiveTimeframes data match_date custom_timeframes use_all_history,
      0 < dw.2 ∧ tfData data match_date dw.1 ≠ []) :
    ∃ dbg,
      calculate_multi_timeframe_confidence data match_date pattern_fn
        min_matches_7d min_matches_30d custom_timeframes use_all_history =
        (dbg.final_confidence, Breakdown.info dbg) ∧
      dbg.ensemble_confidence =
        (((effectiveTimeframes data match_date custom_timeframes use_all_history).filter
            (fun dw => decide (0 < dw.2) && decide (tfData data match_date dw.1 ≠ []))).map
          (fun dw => hitRate pattern_fn (tfData data match_date dw.1) * dw.2)).sum /
        (((effectiveTimeframes data match_date custom_timeframes use_all_history).filter
            (fun dw => decide (0 < dw.2) && decide (tfData data match_date dw.1 ≠ []))).map
          (fun dw => dw.2)).sum := by
  obtain ⟨dw0, hdw0, hpos0, hne0⟩ := h
  have hmemF : dw0 ∈ (effectiveTimeframes data match_date custom_timeframes
      use_all_history).filter
      (fun dw => decide (0 < dw.2) && decide (tfData data match_date dw.1 ≠ [])) :=
    List.mem_filter.mpr ⟨hdw0, by simp [hpos0, hne0]⟩
  have hFne : (effectiveTimeframes data match_date custom_timeframes
      use_all_history).filter
      (fun dw => decide (0 < dw.2) && decide (tfData data match_date dw.1 ≠ [])) ≠ [] :=
    List.ne_nil_of_mem hmemF
  have hposF : ∀ dw ∈ (effectiveTimeframes data match_date custom_timeframes
      use_all_history).filter
      (fun dw => decide (0 < dw.2) && decide (tfData data match_date dw.1 ≠ [])),
      0 < dw.2 := by
    intro dw hdw
    have := (List.mem_filter.mp hdw).2
    simp only [Bool.and_eq_true, decide_eq_true_eq] at this
    exact this.1
  have htw : totalWeight (timeframeResults data match_date pattern_fn
      (effectiveTimeframes data match_date custom_timeframes use_all_history)) =
      (((effectiveTimeframes data match_date custom_timeframes use_all_history).filter
        (fun dw => decide (0 < dw.2) && decide (tfData data match_date dw.1 ≠ []))).map
        (fun dw => dw.2)).sum := by
    unfold totalWeight
    rw [usedEntries_timeframeResults, List.map_map]
    rfl
  have hws : weightedSum (timeframeResults data match_date pattern_fn
      (effectiveTimeframes data match_date custom_timeframes use_all_history)) =
      (((effectiveTimeframes data match_date custom_timeframes use_all_history).filter
        (fun dw => decide (0 < dw.2) && decide (tfData data match_date dw.1 ≠ []))).map
        (fun dw => hitRate pattern_fn (tfData data match_date dw.1) * dw.2)).sum := by
    unfold weightedSum
    rw [usedEntries_timeframeResults, List.map_map]
    rfl
  have htwpos : 0 < totalWeight (timeframeResults data match_date pattern_fn
      (effectiveTimeframes data match_date custom_timeframes use_all_history)) := by
    rw [htw]
    apply List.sum_pos
    · intro x hx
      obtain ⟨dw, hdw, rfl⟩ := List.mem_map.mp hx
      exact hposF dw hdw
    · simpa using hFne
  have hentries_ne : ¬(timeframeResults data match_date pattern_fn
      (effectiveTimeframes data match_date custom_timeframes use_all_history)).isEmpty = true := by
    intro habs
    rw [List.isEmpty_iff] at habs
    have := usedEntries_timeframeResults data match_date pattern_fn
      (effectiveTimeframes data match_date custom_timeframes use_all_history)
    rw [habs] at this
    unfold usedEntries at this
    simp only [List.filter_nil] at this
    exact hFne (List.map_eq_nil_iff.mp this.symm)
  refine ⟨computeDebugInfo (timeframeResults data match_date pattern_fn
    (effectiveTimeframes data match_date custom_timeframes use_all_history))
    min_matches_7d min_matches_30d, ?_, ?_⟩
  · unfold calculate_multi_timeframe_confidence
    dsimp only
    rw [if_neg hentries_ne]
  · simp only [computeDebugInfo]
    unfold ensembleConfidence
    rw [if_pos htwpos, htw, hws]

/-- Closed instantiation of `C3_ensemble_normalization`: the one-match corpus
`[day 999]` as of day 1000 populates the 7-day window with weight 0.30. -/
theorem C3_ensemble_normalization_witness :
    ∃ dbg,
      calculate_multi_timeframe_confidence [⟨999, 2, 1, 5, 3, 1, 2⟩] 1000
        (fun r => decide (1 < r.fthg)) 3 10 none true =
        (dbg.final_confidence, Breakdown.info dbg) ∧
      dbg.ensemble_confidence =
        (((effectiveTimeframes [⟨999, 2, 1, 5, 3, 1, 2⟩] 1000 none true).filter
            (fun dw => decide (0 < dw.2) &&
              decide (tfData [⟨999, 2, 1, 5, 3, 1, 2⟩] 1000 dw.1 ≠ []))).map
          (fun dw => hitRate (fun r => decide (1 < r.fthg))
            (tfData [⟨999, 2, 1, 5, 3, 1, 2⟩] 1000 dw.1) * dw.2)).sum /
        (((effectiveTimeframes [⟨999, 2, 1, 5, 3, 1, 2⟩] 1000 none true).filter
            (fun dw => decide (0 < dw.2) &&
              decide (tfData [⟨999, 2, 1, 5, 3, 1, 2⟩] 1000 dw.1 ≠ []))).map
          (fun dw => dw.2)).sum :=
  C3_ensemble_normalization [⟨999, 2, 1, 5, 3, 1, 2⟩] 1000
    (fun r => decide (1 < r.fthg)) 3 10 none true
    (by
      refine ⟨(7, 30/100), ?_, by norm_num, ?_⟩
      · norm_num [effectiveTimeframes, earliestDate, defaultTimeframes]
      · norm_num [tfData, List.filter])

/-- Pointwise minimum of optional earliest dates. -/
def optMin : Option ℤ → Option ℤ → Option ℤ
  | none, b => b
  | some a, none => some a
  | some a, some b => some (min a b)

/-- The defining equation of `earliestDate` on a cons cell. -/
theorem earliestDate_cons (a : MatchRow) (l : List MatchRow) :
    earliestDate (a :: l) =
      (match earliestDate l with
        | none => some a.date
        | some m => some (min a.date m)) := rfl

/-- `earliestDate` distributes over append as an optional minimum. -/
theorem earliestDate_append (l₁ l₂ : List MatchRow) :
    earliestDate (l₁ ++ l₂) = optMin (earliestDate l₁) (earliestDate l₂) := by
  induction l₁ with
  | nil =>
    simp only [List.nil_append]
    rfl
  | cons a as ih =>
    simp only [List.cons_append, earliestDate_cons, ih]
    cases earliestDate as <;> cases earliestDate l₂ <;>
      simp [optMin, min_assoc]

/-- Appending rows dated on or after the as-of date leaves every timeframe
window unchanged. -/
theorem tfData_append_future (data extra : List MatchRow) (match_date : ℤ)
    (days : ℕ) (h : ∀ r ∈ extra, match_date ≤ r.date) :
    tfData (data ++ extra) match_date days = tfData data match_date days := by
  unfold tfData
  split
  · rw [List.filter_append]
    have hnil : extra.filter (fun r => decide (r.date < match_date)) = [] := by
      rw [List.filter_eq_nil_iff]
      intro r hr
      simp only [decide_eq_true_eq, not_lt]
      exact h r hr
    rw [hnil, List.append_nil]
  · rw [List.filter_append]
    have hnil : extra.filter
        (fun r => decide (match_date - (days : ℤ) ≤ r.date ∧ r.date < match_date)) = [] := by
      rw [List.filter_eq_nil_iff]
      intro r hr
      simp only [decide_eq_true_eq, not_and, not_lt]
      intro _
      exact h r hr
    rw [hnil, List.append_nil]

/-- The optional minimum returned by `earliestDate` is attained. -/
theorem earliestDate_mem (l : List MatchRow) (e : ℤ)
    (he : earliestDate l = some e) : ∃ r ∈ l, r.date = e := by
  induction l generalizing e with
  | nil => exact Option.noConfusion he
  | cons a as ih =>
    rw [earliestDate_cons] at he
    cases hae : earliestDate as with
    | none =>
      rw [hae] at he
      injection he with he
      exact ⟨a, List.mem_cons_self a as, he⟩
    | some m =>
      rw [hae] at he
      injection he with he
      by_cases hm : a.date ≤ m
      · refine ⟨a, List.mem_cons_self a as, ?_⟩
        omega
      · obtain ⟨r, hr, hrm⟩ := ih m hae
        refine ⟨r, List.mem_cons_of_mem a hr, ?_⟩
        omega

/-- Appending rows dated on or after the as-of date leaves the effective
timeframe table unchanged: the only corpus-dependent part is the all-history
trigger, whose `> 730 days` test cannot be turned on or off by records that
are not strictly earlier than the as-of date. -/
theorem effectiveTimeframes_append_future (data extra : List MatchRow)
    (match_date : ℤ) (custom_timeframes : Option (List (ℕ × ℚ)))
    (use_all_history : Bool) (h : ∀ r ∈ extra, match_date ≤ r.date) :
    effectiveTimeframes (data ++ extra) match_date custom_timeframes use_all_history =
      effectiveTimeframes data match_date custom_timeframes use_all_history := by
  cases custom_timeframes with
  | some tfs => rfl
  | none =>
    cases use_all_history with
    | false => rfl
    | true =>
      have hextra : ∀ e, earliestDate extra = some e → match_date ≤ e := by
        intro e hee
        obtain ⟨r, hr, hrd⟩ := earliestDate_mem extra e hee
        have := h r hr
        omega
      simp only [effectiveTimeframes, earliestDate_append]
      cases hd : earliestDate data with
      | none =>
        cases hex : earliestDate extra with
        | none => rfl
        | some ex =>
          have hge := hextra ex hex
          simp only [optMin]
          simp [show ¬(730 < match_date - ex) by omega]
      | some ed =>
        cases hex : earliestDate extra with
        | none => rfl
        | some ex =>
          have hge := hextra ex hex
          simp only [optMin]
          have hiff : (730 < match_date - min ed ex) ↔ (730 < match_date - ed) := by
            omega
          simp [hiff]

/-- C1 (no-lookahead): appending records dated on or after the as-of date to
the corpus changes neither `final_confidence` nor the breakdown computed by
`calculate_multi_timeframe_confidence` for that date, for every predicate,
weight table and minimum configuration. -/
theorem C1_no_lookahead (data extra : List MatchRow) (match_date : ℤ)
    (pattern_fn : MatchRow → Bool) (min_matches_7d min_matches_30d : ℤ)
    (custom_timeframes : Option (List (ℕ × ℚ))) (use_all_history : Bool)
    (h : ∀ r ∈ extra, match_date ≤ r.date) :
    calculate_multi_timeframe_confidence (data ++ extra) match_date pattern_fn
      min_matches_7d min_matches_30d custom_timeframes use_all_history =
    calculate_multi_timeframe_confidence data match_date pattern_fn
      min_matches_7d min_matches_30d custom_timeframes use_all_history := by
  have htfs := effectiveTimeframes_append_future data extra match_date
    custom_timeframes use_all_history h
  have hentries : timeframeResults (data ++ extra) match_date pattern_fn
      (effectiveTimeframes data match_date custom_timeframes use_all_history) =
      timeframeResults data match_date pattern_fn
      (effectiveTimeframes data match_date custom_timeframes use_all_history) := by
    unfold timeframeResults
    have hfn : (fun (dw : ℕ × ℚ) =>
        let rows := tfData (data ++ extra) match_date dw.1
        if 0 < rows.length then
          some (⟨dw.1, rows.length, hitRate pattern_fn rows, dw.2⟩ : TFEntry)
        else none) =
        (fun (dw : ℕ × ℚ) =>
        let rows := tfData data match_date dw.1
        if 0 < rows.length then
          some (⟨dw.1, rows.length, hitRate pattern_fn rows, dw.2⟩ : TFEntry)
        else none) := by
      funext dw
      rw [tfData_append_future data extra match_date dw.1 h]
    rw [hfn]
  unfold calculate_multi_timeframe_confidence
  dsimp only
  rw [htfs, hentries]

/-- Closed instantiation of `C1_no_lookahead`: appending a same-day and a
later record does not change the prediction for day 1000. -/
theorem C1_no_lookahead_witness :
    calculate_multi_timeframe_confidence
      ([⟨999, 2, 1, 5, 3, 1, 2⟩] ++ [⟨1000, 0, 0, 2, 2, 3, 3⟩, ⟨1400, 4, 4, 9, 9, 0, 0⟩])
      1000 (fun r => decide (1 < r.fthg)) 3 10 none true =
    calculate_multi_timeframe_confidence [⟨999, 2, 1, 5, 3, 1, 2⟩]
      1000 (fun r => decide (1 < r.fthg)) 3 10 none true :=
  C1_no_lookahead [⟨999, 2, 1, 5, 3, 1, 2⟩]
    [⟨1000, 0, 0, 2, 2, 3, 3⟩, ⟨1400, 4, 4, 9, 9, 0, 0⟩] 1000
    (fun r => decide (1 < r.fthg)) 3 10 none true (by decide)

/-- A configured threshold is positive whenever every table entry is. -/
theorem thresholdLookup_pos (thresholds : List (String × ℚ))
    (hpos : ∀ p ∈ thresholds, 0 < p.2) (name : String) (thr : ℚ)
    (hl : thresholdLookup thresholds name = some thr) : 0 < thr := by
  unfold thresholdLookup at hl
  cases hf : List.find? (fun p => p.1 == name) thresholds with
  | none =>
    rw [hf] at hl
    exact Option.noConfusion hl
  | some p =>
    rw [hf] at hl
    injection hl with hl
    subst hl
    exact hpos p (List.mem_of_find?_eq_some hf)

/-- Invariant of the Romanian selection loop state: an empty best is all
zeroes, and a nonempty best records a genuine candidate from `L` together
with its confidence and risk-adjusted confidence. -/
def SelInv (thresholds : List (String × ℚ)) (confOf : String → ℚ)
    (L : List String) (st : SelState) : Prop :=
  (st.best_pattern = none → st.best_confidence = 0 ∧ st.best_risk_adjusted = 0) ∧
  (∀ n, st.best_pattern = some n →
    n ∈ L ∧ isCandidate thresholds confOf n ∧
    st.best_confidence = confOf n ∧
    st.best_risk_adjusted = calculate_risk_adjusted_confidence (confOf n) n)

/-- One selection step preserves the loop invariant. -/
theorem predictStep_inv (thresholds : List (String × ℚ)) (confOf : String → ℚ)
    (L : List String) (st : SelState) (n : String) (hn : n ∈ L)
    (hst : SelInv thresholds confOf L st) :
    SelInv thresholds confOf L (predictStep thresholds confOf st n) := by
  unfold predictStep
  cases hl : thresholdLookup thresholds n with
  | none => exact hst
  | some thr =>
    dsimp only
    split
    · rename_i hcond
      constructor
      · intro habs
        exact Option.noConfusion habs
      · intro m hm
        injection hm with hm
        subst hm
        exact ⟨hn, ⟨thr, hl, hcond.1⟩, rfl, rfl⟩
    · exact hst

/-- The whole selection fold preserves the loop invariant. -/
theorem foldl_predictStep_inv (thresholds : List (String × ℚ))
    (confOf : String → ℚ) (L l : List String) (st : SelState)
    (hl : ∀ n ∈ l, n ∈ L) (hst : SelInv thresholds confOf L st) :
    SelInv thresholds confOf L (l.foldl (predictStep thresholds confOf) st) := by
  induction l generalizing st with
  | nil => exact hst
  | cons a as ih =>
    simp only [List.foldl_cons]
    exact ih (predictStep thresholds confOf st a)
      (fun n hn => hl n (List.mem_cons_of_mem a hn))
      (predictStep_inv thresholds confOf L st a (hl a (List.mem_cons_self a as)) hst)

/-- The running best risk-adjusted confidence never decreases. -/
theorem foldl_predictStep_mono (thresholds : List (String × ℚ))
    (confOf : String → ℚ) (l : List String) (st : SelState) :
    st.best_risk_adjusted ≤
      (l.foldl (predictStep thresholds confOf) st).best_risk_adjusted := by
  induction l generalizing st with
  | nil => exact le_refl _
  | cons a as ih =>
    simp only [List.foldl_cons]
    refine le_trans ?_ (ih (predictStep thresholds confOf st a))
    unfold predictStep
    cases thresholdLookup thresholds a with
    | none => exact le_refl _
    | some thr =>
      dsimp only
      split
      · rename_i hcond
        exact le_of_lt hcond.2
      · exact le_refl _

/-- After the fold, the running best dominates the risk-adjusted confidence
of every candidate that was processed. -/
theorem foldl_predictStep_ge (thresholds : List (String × ℚ))
    (confOf : String → ℚ) (l : List String) (st : SelState) :
    ∀ n ∈ l, isCandidate thresholds confOf n →
      calculate_risk_adjusted_confidence (confOf n) n ≤
        (l.foldl (predictStep thresholds confOf) st).best_risk_adjusted := by
  induction l generalizing st with
  | nil =>
    intro n hn
    exact absurd hn (List.not_mem_nil n)
  | cons a as ih =>
    intro n hn hcand
    simp only [List.foldl_cons]
    rcases List.mem_cons.mp hn with rfl | hmem
    · refine le_trans ?_
        (foldl_predictStep_mono thresholds confOf as (predictStep thresholds confOf st n))
      obtain ⟨thr, hl, hthr⟩ := hcand
      unfold predictStep
      rw [hl]
      dsimp only
      split
      · exact le_refl _
      · rename_i hcond
        exact le_of_not_lt (fun hlt => hcond ⟨hthr, hlt⟩)
    · exact ih (predictStep thresholds confOf st a) n hmem hcand

/-- One step leaves an empty best empty exactly when the processed pattern is
not a candidate (given positive thresholds and a zeroed empty state). -/
theorem predictStep_none_iff (thresholds : List (String × ℚ))
    (confOf : String → ℚ) (hpos : ∀ p ∈ thresholds, 0 < p.2)
    (st : SelState) (a : String)
    (hst : st.best_pattern = none → st.best_risk_adjusted = 0) :
    (predictStep thresholds confOf st a).best_pattern = none ↔
      (st.best_pattern = none ∧ ¬isCandidate thresholds confOf a) := by
  unfold predictStep
  cases hl : thresholdLookup thresholds a with
  | none =>
    dsimp only
    constructor
    · intro hnone
      refine ⟨hnone, ?_⟩
      rintro ⟨thr2, hl2, _⟩
      rw [hl] at hl2
      exact Option.noConfusion hl2
    · exact fun hh => hh.1
  | some thr =>
    dsimp only
    split
    · rename_i hcond
      refine iff_of_false (by simp) ?_
      rintro ⟨_, hnc⟩
      exact hnc ⟨thr, hl, hcond.1⟩
    · rename_i hcond
      constructor
      · intro hnone
        refine ⟨hnone, ?_⟩
        rintro ⟨thr2, hl2, hthr2⟩
        rw [hl] at hl2
        injection hl2 with hl2
        subst hl2
        have hra_le : calculate_risk_adjusted_confidence (confOf a) a ≤
            st.best_risk_adjusted :=
          le_of_not_lt (fun hlt => hcond ⟨hthr2, hlt⟩)
        have hzero := hst hnone
        have hthr_pos := thresholdLookup_pos thresholds hpos a thr hl
        rw [hzero] at hra_le
        linarith
      · exact fun hh => hh.1

/-- One step preserves the zeroed-empty-state property. -/
theorem predictStep_none_zero (thresholds : List (String × ℚ))
    (confOf : String → ℚ) (st : SelState) (a : String)
    (hst : st.best_pattern = none → st.best_risk_adjusted = 0) :
    (predictStep thresholds confOf st a).best_pattern = none →
      (predictStep thresholds confOf st a).best_risk_adjusted = 0 := by
  unfold predictStep
  cases thresholdLookup thresholds a with
  | none => exact hst
  | some thr =>
    dsimp only
    split
    · intro habs
      exact Option.noConfusion habs
    · exact hst

/-- The fold ends with an empty best exactly when it started empty and no
processed pattern is a candidate. -/
theorem foldl_predictStep_none_iff (thresholds : List (String × ℚ))
    (confOf : String → ℚ) (hpos : ∀ p ∈ thresholds, 0 < p.2)
    (l : List String) (st : SelState)
    (hst : st.best_pattern = none → st.best_risk_adjusted = 0) :
    (l.foldl (predictStep thresholds confOf) st).best_pattern = none ↔
      (st.best_pattern = none ∧ ∀ n ∈ l, ¬isCandidate thresholds confOf n) := by
  induction l generalizing st with
  | nil => simp
  | cons a as ih =>
    simp only [List.foldl_cons]
    rw [ih (predictStep thresholds confOf st a)
      (predictStep_none_zero thresholds confOf st a hst)]
    rw [predictStep_none_iff thresholds confOf hpos st a hst]
    simp only [List.mem_cons, forall_eq_or_imp]
    tauto

/-- C2 as amended, for the Romanian selection loop
(`SimpleRomanianPredictor.predict_match`): under positive configured
thresholds, the call returns `none` exactly when no pattern is a candidate
(risk-adjusted confidence ≥ its configured threshold); otherwise it returns
exactly one `BestBet` — a candidate carrying its own confidence and
risk-adjusted confidence, maximal in risk-adjusted confidence among all
candidates.  (The Premier-League variant gates candidacy on the raw
confidence instead; see the counterexample.) -/
theorem C2_romanian_best_bet (patterns : List String)
    (thresholds : List (String × ℚ)) (confOf : String → ℚ)
    (hpos : ∀ p ∈ thresholds, 0 < p.2) :
    (predict_match patterns thresholds confOf = none ↔
      ∀ n ∈ patterns, ¬isCandidate thresholds confOf n) ∧
    (∀ b, predict_match patterns thresholds confOf = some b →
      b.pattern_name ∈ patterns ∧
      isCandidate thresholds confOf b.pattern_name ∧
      b.confidence = confOf b.pattern_name ∧
      b.risk_adjusted_confidence =
        calculate_risk_adjusted_confidence (confOf b.pattern_name) b.pattern_name ∧
      b.threshold = (thresholdLookup thresholds b.pattern_name).getD 0 ∧
      ∀ n ∈ patterns, isCandidate thresholds confOf n →
        calculate_risk_adjusted_confidence (confOf n) n ≤
          b.risk_adjusted_confidence) := by
  have hinv : SelInv thresholds confOf patterns
      (patterns.foldl (predictStep thresholds confOf) ⟨none, 0, 0⟩) :=
    foldl_predictStep_inv thresholds confOf patterns patterns ⟨none, 0, 0⟩
      (fun n hn => hn) ⟨fun _ => ⟨rfl, rfl⟩, fun n hm => Option.noConfusion hm⟩
  constructor
  · have hpm : predict_match patterns thresholds confOf = none ↔
        (patterns.foldl (predictStep thresholds confOf)
          ⟨none, 0, 0⟩).best_pattern = none := by
      unfold predict_match
      dsimp only
      cases hsb : (patterns.foldl (predictStep thresholds confOf)
          ⟨none, 0, 0⟩).best_pattern with
      | none => simp
      | some name => simp
    rw [hpm, foldl_predictStep_none_iff thresholds confOf hpos patterns
      ⟨none, 0, 0⟩ (fun _ => rfl)]
    simp
  · intro b hb
    unfold predict_match at hb
    dsimp only at hb
    cases hsb : (patterns.foldl (predictStep thresholds confOf)
        ⟨none, 0, 0⟩).best_pattern with
    | none =>
      rw [hsb] at hb
      exact Option.noConfusion hb
    | some name =>
      rw [hsb] at hb
      injection hb with hb
      obtain ⟨hmem, hcand, hconf, hra⟩ := hinv.2 name hsb
      subst hb
      refine ⟨hmem, hcand, hconf, hra, rfl, ?_⟩
      intro n hn hc
      exact foldl_predictStep_ge thresholds confOf patterns ⟨none, 0, 0⟩ n hn hc

/-- C2 counterexample, from the Premier-League selection core
(`SimplePremierLeaguePredictor.predict`): a single pattern evaluation with
calibrated confidence 0.80 and adjusted threshold 0.78 is admitted on its
raw confidence, and the returned best bet has risk-adjusted confidence
0.74 < 0.78 — under the claim's candidacy rule (risk-adjusted confidence ≥
effective threshold) there is no candidate and the result should have been
`none`, yet a `BestBet` is returned. -/
theorem C2_counterexample :
    plSelectBest [⟨"total_over_2_5_goals", 80/100, 78/100⟩] =
      some ⟨"total_over_2_5_goals", 80/100, 74/100, 78/100⟩ ∧
    calculate_risk_adjusted_confidence (80/100) "total_over_2_5_goals" < 78/100 := by
  constructor
  · with_unfolding_all rfl
  · unfold calculate_risk_adjusted_confidence get_pattern_risk_penalty
    rw [show List.find? (fun p => p.1 == "total_over_2_5_goals")
        PATTERN_RISK_PENALTIES = some ("total_over_2_5_goals", 6/100) by
      with_unfolding_all rfl]
    norm_num

/-- Closed instantiation of `C2_romanian_best_bet`: a single configured
pattern whose risk-adjusted confidence 0.74 clears its 0.62 threshold. -/
theorem C2_romanian_best_bet_witness :
    (⟨"total_over_2_5_goals", 80/100, 74/100, 62/100⟩ : BestBet).pattern_name ∈
      ["total_over_2_5_goals"] ∧
    isCandidate romanianThresholds (fun _ => 80/100) "total_over_2_5_goals" ∧
    (⟨"total_over_2_5_goals", 80/100, 74/100, 62/100⟩ : BestBet).confidence =
      (fun _ => (80/100 : ℚ)) "total_over_2_5_goals" ∧
    (⟨"total_over_2_5_goals", 80/100, 74/100, 62/100⟩ : BestBet).risk_adjusted_confidence =
      calculate_risk_adjusted_confidence ((fun _ => (80/100 : ℚ)) "total_over_2_5_goals")
        "total_over_2_5_goals" ∧
    (⟨"total_over_2_5_goals", 80/100, 74/100, 62/100⟩ : BestBet).threshold =
      (thresholdLookup romanianThresholds "total_over_2_5_goals").getD 0 ∧
    ∀ n ∈ ["total_over_2_5_goals"],
      isCandidate romanianThresholds (fun _ => 80/100) n →
        calculate_risk_adjusted_confidence ((fun _ => (80/100 : ℚ)) n) n ≤
          (⟨"total_over_2_5_goals", 80/100, 74/100, 62/100⟩ :
            BestBet).risk_adjusted_confidence :=
  (C2_romanian_best_bet ["total_over_2_5_goals"] romanianThresholds
    (fun _ => 80/100)
    (by
      intro p hp
      fin_cases hp <;> norm_num)).2
    ⟨"total_over_2_5_goals", 80/100, 74/100, 62/100⟩
    (by with_unfolding_all rfl)

end Betting
